import Mathlib

/-!
Shallow embedding of the `crewai_research` driver (jileZ014/league_gametriq).

The repository is a static configuration of an external agent-orchestration
framework plus a linear driver script:
  - `agents.py` : `BasketballLeagueAgents`, seven agent factory methods;
  - `tasks.py`  : `BasketballLeagueTasks`, seven task factory methods;
  - `main.py`   : `OutputCapture` (a tee-like stdout wrapper) and `main`,
    which builds the seven agents, the seven tasks (three of them with a
    `context` list of earlier tasks), hands them to the framework in
    `Process.sequential` order, and writes a Markdown report.

Pure data (agents, tasks, crew, report chunks) is embedded as Lean records
and lists; the stateful parts (the stdout tee, the try/except/finally control
flow of `main`) are embedded as explicit state passing over stream states and
an outcome record.
-/

namespace CrewaiResearch

/-- An agent descriptor, the fields of the framework `Agent` that
`agents.py` sets: `role`, `goal`, `backstory`, `verbose`,
`allow_delegation`, `max_iter`. -/
structure Agent where
  role : String
  goal : String
  backstory : String
  verbose : Bool
  allow_delegation : Bool
  max_iter : Nat
deriving DecidableEq, Repr

/-- A task descriptor, the fields of the framework `Task` that `tasks.py`
sets: `description`, `agent`, `expected_output` and (for the three
context-taking factories) `context`, a list of earlier `Task` objects.
Factories that do not pass `context` leave it empty. -/
inductive Task where
  | mk (description : String) (agent : Agent) (expected_output : String)
      (context : List Task)

/-- Projection: `Task.description`. -/
def Task.description : Task → String
  | .mk d _ _ _ => d

/-- Projection: `Task.agent`. -/
def Task.agent : Task → Agent
  | .mk _ a _ _ => a

/-- Projection: `Task.expected_output`. -/
def Task.expected_output : Task → String
  | .mk _ _ e _ => e

/-- Projection: `Task.context`. -/
def Task.context : Task → List Task
  | .mk _ _ _ c => c

/-- The framework process modes used by the driver (`Process.sequential`). -/
inductive Process where
  | sequential
  | hierarchical
deriving DecidableEq, Repr

/-- The fields of the framework `Crew` that `main.py` sets. -/
structure Crew where
  agents : List Agent
  tasks : List Task
  process : Process
  verbose : Bool
  full_output : Bool

/-- The agent registry class of `agents.py`: it has no `__init__` and no
attributes, so its state space is a single point. -/
structure BasketballLeagueAgents where

/-- The task registry class of `tasks.py`: it has no `__init__` and no
attributes, so its state space is a single point. -/
structure BasketballLeagueTasks where

-- ===== agents.py: BasketballLeagueAgents =====
/-- `BasketballLeagueAgents.market_researcher` from `agents.py`. -/
def BasketballLeagueAgents.market_researcher (_self : BasketballLeagueAgents) : Agent where
  role := "Market Research Analyst"
  goal := "Analyze existing basketball league management solutions and identify market opportunities"
  backstory :=
    "You are an expert market researcher specializing in sports technology \n            and youth sports management platforms. You have deep knowledge of the competitive \n            landscape and understand what makes sports leagues successful. You\x27re skilled at \n            identifying market gaps and opportunities."
  verbose := true
  allow_delegation := false
  max_iter := 3

/-- `BasketballLeagueAgents.ux_researcher` from `agents.py`. -/
def BasketballLeagueAgents.ux_researcher (_self : BasketballLeagueAgents) : Agent where
  role := "UX Research Specialist"
  goal := "Define user personas, needs, and journey maps for basketball league stakeholders"
  backstory :=
    "You are a UX researcher with extensive experience in sports applications \n            and community platforms. You understand the needs of parents, coaches, players, league \n            administrators, and referees. You excel at creating detailed user personas and \n            identifying pain points in current solutions."
  verbose := true
  allow_delegation := false
  max_iter := 3

/-- `BasketballLeagueAgents.technical_architect` from `agents.py`. -/
def BasketballLeagueAgents.technical_architect (_self : BasketballLeagueAgents) : Agent where
  role := "Technical Architecture Expert"
  goal := "Design scalable technical architecture for basketball league management platform"
  backstory :=
    "You are a senior technical architect with expertise in building scalable \n            SaaS platforms. You have experience with real-time sports applications, mobile development, \n            and handling complex scheduling algorithms. You understand cloud infrastructure, \n            database design, and API architecture."
  verbose := true
  allow_delegation := false
  max_iter := 3

/-- `BasketballLeagueAgents.feature_analyst` from `agents.py`. -/
def BasketballLeagueAgents.feature_analyst (_self : BasketballLeagueAgents) : Agent where
  role := "Feature Priority Analyst"
  goal := "Define and prioritize features based on user needs and technical feasibility"
  backstory :=
    "You are a product analyst specializing in sports management software. \n            You excel at breaking down complex requirements into actionable features and creating \n            priority matrices based on user value and implementation effort. You understand \n            MVP development and iterative product delivery."
  verbose := true
  allow_delegation := false
  max_iter := 3

/-- `BasketballLeagueAgents.compliance_expert` from `agents.py`. -/
def BasketballLeagueAgents.compliance_expert (_self : BasketballLeagueAgents) : Agent where
  role := "Youth Sports Compliance and Safety Expert"
  goal := "Ensure all legal, safety, and compliance requirements for youth sports are addressed"
  backstory :=
    "You are an expert in youth sports regulations, child safety online (COPPA), \n            data privacy laws, and sports organization compliance. You understand background check \n            requirements, insurance needs, and safety protocols for youth sports leagues. \n            You\x27re familiar with both national and state-specific requirements."
  verbose := true
  allow_delegation := false
  max_iter := 3

/-- `BasketballLeagueAgents.business_strategist` from `agents.py`. -/
def BasketballLeagueAgents.business_strategist (_self : BasketballLeagueAgents) : Agent where
  role := "Business Strategy Consultant"
  goal := "Develop monetization strategy and business model for sustainable growth"
  backstory :=
    "You are a business strategist with deep experience in SaaS platforms \n            and sports technology. You understand various monetization models, pricing strategies, \n            and growth tactics for B2B2C platforms. You can analyze unit economics and create \n            sustainable business models."
  verbose := true
  allow_delegation := false
  max_iter := 3

/-- `BasketballLeagueAgents.ui_designer` from `agents.py`. -/
def BasketballLeagueAgents.ui_designer (_self : BasketballLeagueAgents) : Agent where
  role := "UI/Visual Design Specialist"
  goal := "Create comprehensive UI design system and interface specifications for basketball league platform"
  backstory :=
    "You are a senior UI designer specializing in sports applications \n            and mobile-first design. You have extensive experience designing interfaces for \n            diverse user groups from tech-savvy teenagers to parent volunteers. You understand \n            modern design trends, accessibility standards (WCAG 2.1), and how to create \n            design systems that scale. You\x27re skilled at creating interfaces that are both \n            visually appealing and highly functional, with expertise in color psychology, \n            typography, interaction design, and responsive layouts. You know how to balance \n            fun, engaging elements for youth with professional needs of league administrators."
  verbose := true
  allow_delegation := false
  max_iter := 3

-- ===== tasks.py: BasketballLeagueTasks =====
/-- `BasketballLeagueTasks.market_research_task` from `tasks.py`. -/
def BasketballLeagueTasks.market_research_task (_self : BasketballLeagueTasks) (agent : Agent) : Task :=
  Task.mk
    "Conduct comprehensive market research on basketball league management platforms:\n            \n            1. Identify and analyze 10-15 existing solutions including:\n               - TeamSnap, SportsEngine, LeagueApps, GameChanger\n               - Blue Sombrero, TeamSideline, Tourney Machine\n               - Any Phoenix/Arizona specific solutions\n            \n            2. For each platform, analyze:\n               - Core features and functionality\n               - Pricing models and tiers\n               - Target market (youth, adult, professional)\n               - User reviews and pain points\n               - Market share and adoption\n            \n            3. Identify market gaps and opportunities:\n               - Underserved features\n               - Common user complaints\n               - Regional specific needs for Phoenix/Arizona\n               - Integration opportunities\n            \n            Provide a detailed competitive analysis matrix and market opportunity report."
    agent
    "Comprehensive market analysis report with competitive matrix and opportunity identification"
    []

/-- `BasketballLeagueTasks.user_research_task` from `tasks.py`. -/
def BasketballLeagueTasks.user_research_task (_self : BasketballLeagueTasks) (agent : Agent) : Task :=
  Task.mk
    "Define user personas and journey maps for basketball league management:\n            \n            1. Create detailed personas for:\n               - League Administrators/Commissioners\n               - Team Coaches (volunteer and professional)\n               - Parents/Guardians\n               - Players (different age groups: 6-8, 9-12, 13-15, 16-18)\n               - Referees and Officials\n               - Scorekeepers and Volunteers\n               - Spectators/Fans\n            \n            2. For each persona, define:\n               - Demographics and characteristics\n               - Goals and motivations\n               - Pain points and frustrations\n               - Technology comfort level\n               - Device preferences (mobile vs desktop)\n               - Feature priorities\n            \n            3. Create user journey maps for key scenarios:\n               - Season registration and team formation\n               - Weekly game scheduling and updates\n               - Game day operations\n               - End of season tournaments\n               - Communication flows\n            \n            Include accessibility considerations and multilingual needs."
    agent
    "Detailed user personas and journey maps with pain points and opportunities"
    []

/-- `BasketballLeagueTasks.technical_requirements_task` from `tasks.py`. -/
def BasketballLeagueTasks.technical_requirements_task (_self : BasketballLeagueTasks) (agent : Agent) : Task :=
  Task.mk
    "Design technical architecture for scalable basketball league platform:\n            \n            1. Platform Architecture:\n               - Mobile app requirements (iOS/Android native vs React Native vs Flutter)\n               - Web application architecture\n               - API design (REST vs GraphQL)\n               - Real-time features (live scoring, notifications)\n            \n            2. Core Technical Components:\n               - User authentication and authorization\n               - Database design for leagues, teams, players, games\n               - Scheduling algorithm requirements\n               - Payment processing integration\n               - Communication systems (email, SMS, push notifications)\n            \n            3. Infrastructure Requirements:\n               - Cloud platform recommendation (AWS, Google Cloud, Azure)\n               - Scalability considerations (concurrent users, data storage)\n               - Performance requirements (response times, offline capability)\n               - Security and data privacy measures\n            \n            4. Integration Requirements:\n               - Calendar sync (Google, Apple, Outlook)\n               - Social media sharing\n               - Video streaming/highlight integration\n               - Statistics and analytics platforms\n               - Payment gateways\n            \n            Provide technology stack recommendations with justifications."
    agent
    "Complete technical architecture document with technology recommendations"
    []

/-- `BasketballLeagueTasks.feature_prioritization_task` from `tasks.py`. -/
def BasketballLeagueTasks.feature_prioritization_task (_self : BasketballLeagueTasks) (agent : Agent) (context : List Task) : Task :=
  Task.mk
    "Create prioritized feature list based on research findings:\n            \n            1. Core MVP Features (Must Have):\n               - Essential features for basic league operation\n               - Minimum viable product definition\n            \n            2. Phase 2 Features (Should Have):\n               - Enhanced user experience features\n               - Competitive differentiation features\n            \n            3. Phase 3 Features (Nice to Have):\n               - Advanced features for mature product\n               - Innovation opportunities\n            \n            4. For each feature, provide:\n               - User story format\n               - Acceptance criteria\n               - Effort estimation (T-shirt sizes: S, M, L, XL)\n               - Value score (1-10)\n               - Dependencies\n            \n            5. Create feature roadmap:\n               - 3-month MVP timeline\n               - 6-month enhanced version\n               - 12-month full platform\n            \n            Consider Phoenix basketball league specific needs and requirements."
    agent
    "Prioritized feature list with roadmap and implementation timeline"
    context

/-- `BasketballLeagueTasks.compliance_review_task` from `tasks.py`. -/
def BasketballLeagueTasks.compliance_review_task (_self : BasketballLeagueTasks) (agent : Agent) : Task :=
  Task.mk
    "Analyze compliance and safety requirements for youth basketball leagues:\n            \n            1. Legal Requirements:\n               - COPPA compliance for users under 13\n               - Data privacy laws (CCPA, GDPR if applicable)\n               - Terms of service and privacy policy requirements\n               - Liability and waiver management\n            \n            2. Youth Sports Safety:\n               - Background check integration for coaches/volunteers\n               - SafeSport compliance\n               - Medical information and emergency contact management\n               - Concussion protocols and injury tracking\n               - Insurance requirements\n            \n            3. League Governance:\n               - Age verification systems\n               - Roster eligibility rules\n               - Playing time regulations\n               - Code of conduct enforcement\n            \n            4. Platform Specific:\n               - Photo/video sharing permissions\n               - Communication boundaries (coach-player messaging)\n               - Parent/guardian consent workflows\n               - Data retention policies\n            \n            5. Arizona/Phoenix Specific:\n               - State specific requirements\n               - Local league regulations\n               - Heat safety protocols\n            \n            Provide compliance checklist and implementation recommendations."
    agent
    "Comprehensive compliance requirements document with implementation guidelines"
    []

/-- `BasketballLeagueTasks.business_model_task` from `tasks.py`. -/
def BasketballLeagueTasks.business_model_task (_self : BasketballLeagueTasks) (agent : Agent) (context : List Task) : Task :=
  Task.mk
    "Develop comprehensive business model and monetization strategy:\n            \n            1. Revenue Models Analysis:\n               - SaaS subscription tiers (league, team, individual)\n               - Transaction fees (registration, payments)\n               - Freemium vs paid features\n               - Marketplace opportunities (equipment, photography)\n               - Sponsorship and advertising options\n            \n            2. Pricing Strategy:\n               - Competitive pricing analysis\n               - Value-based pricing model\n               - Pricing tiers and packages\n               - Seasonal pricing considerations\n               - Phoenix market pricing sensitivity\n            \n            3. Customer Acquisition:\n               - Go-to-market strategy\n               - Partnership opportunities (schools, rec centers)\n               - Referral and viral growth features\n               - Customer acquisition cost estimates\n            \n            4. Financial Projections:\n               - Unit economics per league/team/player\n               - Revenue projections (Year 1-3)\n               - Cost structure analysis\n               - Break-even analysis\n               - Funding requirements\n            \n            5. Growth Strategy:\n               - Geographic expansion plan\n               - Sport expansion opportunities (beyond basketball)\n               - Platform ecosystem development\n               - Partnership and integration strategy\n            \n            Provide detailed business plan with financial model."
    agent
    "Complete business model with monetization strategy and financial projections"
    context

/-- `BasketballLeagueTasks.ui_design_task` from `tasks.py`. -/
def BasketballLeagueTasks.ui_design_task (_self : BasketballLeagueTasks) (agent : Agent) (context : List Task) : Task :=
  Task.mk
    "Create comprehensive UI design system and interface specifications:\n            \n            1. Visual Design System:\n               - Color palette (primary, secondary, accent, semantic colors)\n               - Typography scale (fonts, sizes, weights, line heights)\n               - Spacing system (padding, margins, grid)\n               - Border radius, shadows, and effects\n               - Icon style and library recommendations\n               - Motion and animation principles\n            \n            2. Component Library Specifications:\n               - Buttons (primary, secondary, ghost, icon, floating action)\n               - Form elements (inputs, selects, checkboxes, date pickers)\n               - Cards (team cards, player cards, game cards, stat cards)\n               - Navigation (top nav, bottom nav, drawer, breadcrumbs)\n               - Tables and data displays (standings, schedules, rosters)\n               - Modals, alerts, and notifications\n               - Loading states and empty states\n            \n            3. Key Screen Layouts (Mobile-First):\n               - Landing page/marketing site\n               - Registration and onboarding flow\n               - Dashboard layouts for each persona:\n                 * Admin dashboard (league overview)\n                 * Coach dashboard (team management)\n                 * Parent portal (child\x27s schedule/stats)\n                 * Player profile (stats and achievements)\n               - Game day screens:\n                 * Live scoring interface\n                 * Roster/lineup management\n                 * Shot clock/game clock display\n               - Schedule views (calendar, list, grid)\n               - Communication interfaces (announcements, messaging)\n               - Settings and profile screens\n            \n            4. Responsive Design Strategy:\n               - Mobile breakpoints (320px, 375px, 414px)\n               - Tablet breakpoints (768px, 1024px)\n               - Desktop breakpoints (1280px, 1440px, 1920px)\n               - Touch target sizes for mobile\n               - Landscape vs portrait considerations\n            \n            5. Interaction Patterns:\n               - Navigation patterns (tab bar vs hamburger)\n               - Data input patterns (forms, quick actions)\n               - Gesture controls (swipe, pull-to-refresh)\n               - Feedback mechanisms (haptic, visual, audio)\n               - Progressive disclosure strategies\n            \n            6. Accessibility and Inclusivity:\n               - WCAG 2.1 AA compliance requirements\n               - Color contrast ratios\n               - Font size minimums\n               - Touch target sizes\n               - Screen reader considerations\n               - Support for reduced motion\n            \n            7. Platform-Specific Considerations:\n               - iOS vs Android design differences\n               - Web vs native app adaptations\n               - PWA capabilities and constraints\n               - Offline mode UI patterns\n            \n            8. Brand and Personality:\n               - Visual tone (professional vs playful balance)\n               - Age-appropriate design for youth\n               - Team customization options\n               - White-label considerations\n            \n            9. Performance Guidelines:\n               - Image optimization requirements\n               - Animation performance budgets\n               - Lazy loading strategies\n               - Critical rendering path elements\n            \n            Provide detailed UI specifications document with visual examples and implementation guidelines."
    agent
    "Comprehensive UI design system documentation with component specifications and screen layouts"
    context

/-! ## The driver (`main.py`)

`main` instantiates the two registries, builds the seven agents and the
seven tasks (three of them with a `context` list of previously built
tasks), collects the tasks in `all_tasks`, and builds the `Crew`. -/

/-- `agents = BasketballLeagueAgents()` in `main`. -/
def agentsRegistry : BasketballLeagueAgents := ⟨⟩

/-- `market_researcher = agents.market_researcher()`. -/
def market_researcher : Agent := agentsRegistry.market_researcher

/-- `ux_researcher = agents.ux_researcher()`. -/
def ux_researcher : Agent := agentsRegistry.ux_researcher

/-- `technical_architect = agents.technical_architect()`. -/
def technical_architect : Agent := agentsRegistry.technical_architect

/-- `feature_analyst = agents.feature_analyst()`. -/
def feature_analyst : Agent := agentsRegistry.feature_analyst

/-- `compliance_expert = agents.compliance_expert()`. -/
def compliance_expert : Agent := agentsRegistry.compliance_expert

/-- `business_strategist = agents.business_strategist()`. -/
def business_strategist : Agent := agentsRegistry.business_strategist

/-- `ui_designer = agents.ui_designer()`. -/
def ui_designer : Agent := agentsRegistry.ui_designer

/-- `tasks = BasketballLeagueTasks()` in `main`. -/
def tasksRegistry : BasketballLeagueTasks := ⟨⟩

/-- `market_research = tasks.market_research_task(market_researcher)`. -/
def market_research : Task := tasksRegistry.market_research_task market_researcher

/-- `user_research = tasks.user_research_task(ux_researcher)`. -/
def user_research : Task := tasksRegistry.user_research_task ux_researcher

/-- `technical_requirements = tasks.technical_requirements_task(technical_architect)`. -/
def technical_requirements : Task :=
  tasksRegistry.technical_requirements_task technical_architect

/-- `compliance_review = tasks.compliance_review_task(compliance_expert)`. -/
def compliance_review : Task := tasksRegistry.compliance_review_task compliance_expert

/-- `feature_prioritization = tasks.feature_prioritization_task(feature_analyst,
context=[market_research, user_research, technical_requirements])`. -/
def feature_prioritization : Task :=
  tasksRegistry.feature_prioritization_task feature_analyst
    [market_research, user_research, technical_requirements]

/-- `ui_design = tasks.ui_design_task(ui_designer,
context=[user_research, feature_prioritization])`. -/
def ui_design : Task :=
  tasksRegistry.ui_design_task ui_designer [user_research, feature_prioritization]

/-- `business_model = tasks.business_model_task(business_strategist,
context=[market_research, user_research, feature_prioritization])`. -/
def business_model : Task :=
  tasksRegistry.business_model_task business_strategist
    [market_research, user_research, feature_prioritization]

/-- `all_tasks` in `main`: the seven tasks, in the order handed to the crew. -/
def all_tasks : List Task :=
  [market_research, user_research, technical_requirements, compliance_review,
   feature_prioritization, ui_design, business_model]

/-- The seven agents, in the order `main` builds them and passes them to the
crew (`compliance_expert` before `feature_analyst`, and `ui_designer` before
`business_strategist`, as in the `Crew(...)` call). -/
def crewAgents : List Agent :=
  [market_researcher, ux_researcher, technical_architect, compliance_expert,
   feature_analyst, ui_designer, business_strategist]

/-- `crew = Crew(agents=[...], tasks=all_tasks, process=Process.sequential,
verbose=True, full_output=True)` in `main`. -/
def crew : Crew where
  agents := crewAgents
  tasks := all_tasks
  process := Process.sequential
  verbose := true
  full_output := true

/-! ## `OutputCapture` (`main.py`, lines 12-26)

A text stream is modelled by the sequence of messages flushed so far and the
sequence still buffered; `write` appends to the buffer, `flush` moves the
buffer into the flushed part.  `OutputCapture` holds the original terminal
stream and the log-file stream opened at construction (a freshly opened file
is an empty stream). -/

/-- State of one text stream: already-flushed messages and buffered ones. -/
structure TextStream where
  flushed : List String
  buffer : List String
deriving DecidableEq, Repr

/-- `stream.write(message)`: append the message to the buffer. -/
def TextStream.write (s : TextStream) (message : String) : TextStream :=
  { s with buffer := s.buffer ++ [message] }

/-- `stream.flush()`: move the buffer into the flushed part. -/
def TextStream.flush (s : TextStream) : TextStream :=
  { flushed := s.flushed ++ s.buffer, buffer := [] }

/-- Everything written to the stream so far, flushed or not, in order. -/
def TextStream.content (s : TextStream) : List String :=
  s.flushed ++ s.buffer

/-- `OutputCapture`: `self.terminal = sys.stdout`; `self.log = open(filename, 'w')`. -/
structure OutputCapture where
  terminal : TextStream
  log : TextStream
deriving DecidableEq, Repr

/-- `OutputCapture.__init__`: keeps the current stdout as `terminal` and opens
the log file fresh (`'w'` mode truncates, so the log stream starts empty). -/
def OutputCapture.init (stdout : TextStream) : OutputCapture :=
  { terminal := stdout, log := { flushed := [], buffer := [] } }

/-- `OutputCapture.write`: `self.terminal.write(message); self.log.write(message)`. -/
def OutputCapture.write (oc : OutputCapture) (message : String) : OutputCapture :=
  { terminal := oc.terminal.write message, log := oc.log.write message }

/-- `OutputCapture.flush`: `self.terminal.flush(); self.log.flush()`. -/
def OutputCapture.flush (oc : OutputCapture) : OutputCapture :=
  { terminal := oc.terminal.flush, log := oc.log.flush }

/-- Writing a whole sequence of messages through the capture, in order. -/
def OutputCapture.writeAll (oc : OutputCapture) (messages : List String) : OutputCapture :=
  messages.foldl OutputCapture.write oc

/-! ## The Markdown report (`main.py`, lines 109-175)

The report is the sequence of strings passed to `f.write`, in order; the file
content is their concatenation.  A task output attribute is modelled as
`Option String`: `none` when `hasattr(task, 'output')` is false or the
attribute is `None`, `some s` when the attribute holds text rendering as `s`
(the empty string when that text is falsy).  The `result` of
`crew.kickoff()` is modelled as the string it renders to. -/

/-- Truthiness of `hasattr(task, 'output') and task.output`. -/
def truthyOutput : Option String → Bool
  | none => false
  | some s => !s.isEmpty

/-- `"=" * n` (and likewise for other characters). -/
def repeatChar (c : Char) (n : Nat) : String :=
  String.mk (List.replicate n c)

/-- The per-run task output attributes `main` reads back after
`crew.kickoff()`: one per task object it kept a reference to. -/
structure RunOutputs where
  market_research_output : Option String
  user_research_output : Option String
  technical_requirements_output : Option String
  compliance_review_output : Option String
  feature_prioritization_output : Option String
  ui_design_output : Option String
  business_model_output : Option String
deriving DecidableEq, Repr

/-- One task section body: `str(task.output) + "\n\n"` when
`hasattr(task, 'output') and task.output` is truthy, else the fixed
fallback note (which in the code already ends in `"\n\n"`). -/
def renderTaskSection (output : Option String) (fallback : String) : String :=
  match output with
  | some s => if s.isEmpty then fallback else s ++ "\n\n"
  | none => fallback

/-- The seven table-of-contents entries, exactly as written by `main`. -/
def tocChunks : List String :=
  [ "1. [Market Research Analysis](#1-market-research-analysis)\n"
  , "2. [User Research & Personas](#2-user-research--personas)\n"
  , "3. [Technical Architecture](#3-technical-architecture)\n"
  , "4. [Compliance & Safety Requirements](#4-compliance--safety-requirements)\n"
  , "5. [Feature Prioritization](#5-feature-prioritization)\n"
  , "6. [UI Design System](#6-ui-design-system)\n"
  , "7. [Business Model & Monetization](#7-business-model--monetization)\n\n" ]

/-- The sequence of `f.write` arguments producing the Markdown report, in
order.  `genTime` is the formatted `datetime.now()` string and `fullLog` the
full-output log filename interpolated by the two f-strings.  Note that
section 7 tests and writes `result` (the value returned by `crew.kickoff()`),
not `business_model.output`, so `ro.business_model_output` is never read. -/
def buildReport (genTime fullLog : String) (ro : RunOutputs) (result : String) :
    List String :=
  [ "# Basketball League Management App - Complete Research Report\n\n"
  , "Generated: " ++ genTime ++ "\n\n"
  , repeatChar '=' 80 ++ "\n\n"
  , "## Table of Contents\n\n" ]
  ++ tocChunks ++
  [ repeatChar '=' 80 ++ "\n\n"
  , "## 1. Market Research Analysis\n\n"
  , renderTaskSection ro.market_research_output
      "*Market research output not captured - check full log file*\n\n"
  , repeatChar '=' 80 ++ "\n\n"
  , "## 2. User Research & Personas\n\n"
  , renderTaskSection ro.user_research_output
      "*User research output not captured - check full log file*\n\n"
  , repeatChar '=' 80 ++ "\n\n"
  , "## 3. Technical Architecture\n\n"
  , renderTaskSection ro.technical_requirements_output
      "*Technical architecture output not captured - check full log file*\n\n"
  , repeatChar '=' 80 ++ "\n\n"
  , "## 4. Compliance & Safety Requirements\n\n"
  , renderTaskSection ro.compliance_review_output
      "*Compliance output not captured - check full log file*\n\n"
  , repeatChar '=' 80 ++ "\n\n"
  , "## 5. Feature Prioritization\n\n"
  , renderTaskSection ro.feature_prioritization_output
      "*Feature prioritization output not captured - check full log file*\n\n"
  , repeatChar '=' 80 ++ "\n\n"
  , "## 6. UI Design System\n\n"
  , renderTaskSection ro.ui_design_output
      "*UI design output not captured - check full log file*\n\n"
  , repeatChar '=' 80 ++ "\n\n"
  , "## 7. Business Model & Monetization\n\n"
  , (if result.isEmpty then
       "*Business model output not captured - check full log file*\n\n"
     else result ++ "\n\n")
  , repeatChar '=' 80 ++ "\n\n"
  , "## End of Report\n\n"
  , "For complete details including agent reasoning, see: " ++ fullLog ++ "\n" ]

/-! ## Control flow of `main` (`main.py`, lines 105-191)

`main` runs `result = crew.kickoff()` and the report writing inside one
`try`, catches any exception in a single `except Exception` clause (printing
an error message), and in `finally` closes the log file
(`sys.stdout.close()`, which is `OutputCapture.close`, closing `self.log`)
and restores `sys.stdout = sys.__stdout__`.  After the `finally` block, the
function body ends with `return result`; in Python, reading a local variable
that was never bound raises `UnboundLocalError`, so when `crew.kickoff()`
raised, `main` does not return normally.

The two external effects that can raise are inputs of the model: the outcome
of `crew.kickoff()` and the outcome of writing the report file (any
exception is carried as its message string). -/

/-- What a run of `main` did, observably. -/
structure MainOutcome where
  /-- `some v` when `main` returned normally, with the value it returned. -/
  ret : Option String
  /-- `main` raised `UnboundLocalError` at `return result` because the local
  `result` was never bound. -/
  raisedUnboundLocal : Bool
  /-- The `finally` block ran `sys.stdout.close()`, closing the log file. -/
  logClosed : Bool
  /-- The `finally` block restored `sys.stdout = sys.__stdout__`. -/
  stdoutRestored : Bool
  /-- The `except Exception` clause ran and printed its error message. -/
  errorPrinted : Bool
  /-- The report written, as the sequence of `f.write` arguments
  (`none` when the report file was not completed). -/
  report : Option (List String)
deriving DecidableEq, Repr

/-- The `try`/`except`/`finally` part of `main` together with the final
`return result`.  `kick` is the outcome of `crew.kickoff()`; `reportWrite`
is the outcome of writing the report file after a successful kickoff. -/
def mainModel (kick : Except String String) (reportWrite : Except String Unit)
    (ro : RunOutputs) (genTime fullLog : String) : MainOutcome :=
  -- try: `result = crew.kickoff()` binds the local only when it returns
  match kick with
  | .ok result =>
    match reportWrite with
    | .ok _ =>
      -- try completed; finally closes the log and restores stdout;
      -- `return result` reads the bound local
      { ret := some result
        raisedUnboundLocal := false
        logClosed := true
        stdoutRestored := true
        errorPrinted := false
        report := some (buildReport genTime fullLog ro result) }
    | .error _e =>
      -- report writing raised after `result` was bound: the broad except
      -- clause catches it and prints; finally runs; `return result` still
      -- reads the bound local
      { ret := some result
        raisedUnboundLocal := false
        logClosed := true
        stdoutRestored := true
        errorPrinted := true
        report := none }
  | .error _e =>
    -- `crew.kickoff()` raised before binding `result`: the except clause
    -- catches and prints; finally runs; `return result` then reads an
    -- unbound local, raising UnboundLocalError
    { ret := none
      raisedUnboundLocal := true
      logClosed := true
      stdoutRestored := true
      errorPrinted := true
      report := none }

/-! ## Helper lemmas -/

set_option maxRecDepth 4000

/-- `write` appends the message to everything the stream has received. -/
theorem TextStream.content_write (s : TextStream) (m : String) :
    (s.write m).content = s.content ++ [m] := by
  simp [TextStream.write, TextStream.content]

/-- `flush` does not change what the stream has received. -/
theorem TextStream.content_flush (s : TextStream) :
    s.flush.content = s.content := by
  simp [TextStream.flush, TextStream.content]

/-- Writing a sequence of messages through the capture appends it, in order,
to both underlying streams. -/
theorem OutputCapture.writeAll_content (ms : List String) (oc : OutputCapture) :
    (oc.writeAll ms).log.content = oc.log.content ++ ms ∧
    (oc.writeAll ms).terminal.content = oc.terminal.content ++ ms := by
  induction ms generalizing oc with
  | nil => simp [OutputCapture.writeAll]
  | cons m ms ih =>
    have h : oc.writeAll (m :: ms) = (oc.write m).writeAll ms := rfl
    rw [h]
    rcases ih (oc.write m) with ⟨h1, h2⟩
    constructor
    · rw [h1]
      show (oc.log.write m).content ++ ms = oc.log.content ++ (m :: ms)
      rw [TextStream.content_write]
      simp
    · rw [h2]
      show (oc.terminal.write m).content ++ ms = oc.terminal.content ++ (m :: ms)
      rw [TextStream.content_write]
      simp

/-- A task section body is the task output (plus a blank line) when the
output attribute is truthy, and the fallback note otherwise. -/
theorem renderTaskSection_ite (o : Option String) (fb : String) :
    renderTaskSection o fb
      = if truthyOutput o then o.getD "" ++ "\n\n" else fb := by
  cases o with
  | none => rfl
  | some s =>
    simp only [renderTaskSection, truthyOutput, Option.getD]
    by_cases h : s.isEmpty <;> simp [h]

/-- A concrete post-run state in which every task object carries a truthy
output attribute; used to instantiate the run-dependent theorems. -/
def sampleOutputs : RunOutputs where
  market_research_output := some "MARKET RESEARCH BODY"
  user_research_output := some "USER RESEARCH BODY"
  technical_requirements_output := some "TECHNICAL BODY"
  compliance_review_output := some "COMPLIANCE BODY"
  feature_prioritization_output := some "FEATURE BODY"
  ui_design_output := some "UI BODY"
  business_model_output := some "BUSINESS MODEL BODY"

/-! ## Claims -/

/-- Claim C1, counterexample: it is not the case that exactly four of the
seven tasks handed to the executor carry a non-empty context list — the
count is three (`feature_prioritization`, `ui_design`, `business_model`),
since `market_research`, `user_research`, `technical_requirements` and
`compliance_review` are built without a context argument. -/
theorem task_context_count_is_not_four :
    ¬ (all_tasks.countP (fun t => !t.context.isEmpty) = 4) := by decide

/-- Claim C1, amended: the task registry produces seven static task
descriptors, and exactly three of the seven tasks handed to the executor
declare a context dependency on the outputs of earlier tasks (a non-empty
context list of prior tasks), namely the feature-prioritization, UI-design
and business-model tasks. -/
theorem task_registry_seven_tasks_three_with_context :
    all_tasks.length = 7
  ∧ all_tasks.countP (fun t => !t.context.isEmpty) = 3
  ∧ all_tasks.filter (fun t => !t.context.isEmpty)
      = [feature_prioritization, ui_design, business_model] :=
  ⟨by decide, by decide, rfl⟩

/-- Claim C2: the agent registry produces exactly seven static role
descriptors — one per factory method, with seven pairwise distinct roles —
and every one of the seven factory methods returns an `Agent` carrying a
(non-empty) role, goal and backstory and the same execution limits,
`allow_delegation = false` and `max_iter = 3`. -/
theorem agent_registry_seven_descriptors_fields_and_limits :
    crewAgents.length = 7
  ∧ crewAgents = [agentsRegistry.market_researcher, agentsRegistry.ux_researcher,
      agentsRegistry.technical_architect, agentsRegistry.compliance_expert,
      agentsRegistry.feature_analyst, agentsRegistry.ui_designer,
      agentsRegistry.business_strategist]
  ∧ (crewAgents.map Agent.role).Nodup
  ∧ crewAgents.all (fun a =>
      a.allow_delegation == false && a.max_iter == 3 &&
      !a.role.isEmpty && !a.goal.isEmpty && !a.backstory.isEmpty) = true :=
  ⟨rfl, rfl, by decide, by decide⟩

/-- Claim C3: `OutputCapture.write` writes each message both to the original
terminal stream and to the log file opened at construction, and
`OutputCapture.flush` flushes both streams; consequently, after any sequence
of writes through a freshly constructed capture, the log file has received
exactly the sequence of messages written to the console, in order. -/
theorem output_capture_tees_writes_in_order :
    (∀ (oc : OutputCapture) (m : String),
        (oc.write m).terminal = oc.terminal.write m
      ∧ (oc.write m).log = oc.log.write m)
  ∧ (∀ oc : OutputCapture,
        oc.flush.terminal = oc.terminal.flush ∧ oc.flush.log = oc.log.flush)
  ∧ (∀ (stdout : TextStream) (ms : List String),
        ((OutputCapture.init stdout).writeAll ms).log.content = ms
      ∧ ((OutputCapture.init stdout).writeAll ms).terminal.content
          = stdout.content ++ ms) := by
  refine ⟨fun oc m => ⟨rfl, rfl⟩, fun oc => ⟨rfl, rfl⟩, fun stdout ms => ?_⟩
  rcases OutputCapture.writeAll_content ms (OutputCapture.init stdout) with ⟨h1, h2⟩
  constructor
  · rw [h1]; rfl
  · rw [h2]; rfl

/-- Claim C4, counterexample: in a run where the business-model task object
carries a truthy output attribute but `crew.kickoff()` rendered as an empty
(falsy) value, section 7 of the report holds the fixed fallback note and not
the business-model task's output — the code fills section 7 from `result`,
never reading `business_model.output`. -/
theorem report_section7_ignores_business_model_output :
    truthyOutput sampleOutputs.business_model_output = true
  ∧ (buildReport "2025-01-01 00:00:00" "full.txt" sampleOutputs "").get? 31
      = some "*Business model output not captured - check full log file*\n\n"
  ∧ (buildReport "2025-01-01 00:00:00" "full.txt" sampleOutputs "").get? 31
      ≠ some ("BUSINESS MODEL BODY" ++ "\n\n") :=
  ⟨rfl, rfl, by decide⟩

/-- Claim C4, amended: after a successful crew execution the driver writes a
Markdown report that begins with a fixed seven-entry table of contents and
then contains, in table-of-contents order, a numbered section for each of
the seven report topics; sections 1 through 6 hold the corresponding task's
captured output when that task has a truthy output attribute and a fixed
"not captured" fallback note otherwise, while section 7 holds the overall
value returned by `crew.kickoff()` when that value is truthy and the
fallback note otherwise. -/
theorem report_fixed_toc_and_numbered_sections
    (genTime fullLog : String) (ro : RunOutputs) (result : String) :
    (mainModel (Except.ok result) (Except.ok ()) ro genTime fullLog).report
      = some (buildReport genTime fullLog ro result)
  ∧ (buildReport genTime fullLog ro result).length = 35
  ∧ ((buildReport genTime fullLog ro result).drop 4).take 7 = tocChunks
  ∧ (buildReport genTime fullLog ro result).get? 12
      = some "## 1. Market Research Analysis\n\n"
  ∧ (buildReport genTime fullLog ro result).get? 13
      = some (if truthyOutput ro.market_research_output
          then ro.market_research_output.getD "" ++ "\n\n"
          else "*Market research output not captured - check full log file*\n\n")
  ∧ (buildReport genTime fullLog ro result).get? 15
      = some "## 2. User Research & Personas\n\n"
  ∧ (buildReport genTime fullLog ro result).get? 16
      = some (if truthyOutput ro.user_research_output
          then ro.user_research_output.getD "" ++ "\n\n"
          else "*User research output not captured - check full log file*\n\n")
  ∧ (buildReport genTime fullLog ro result).get? 18
      = some "## 3. Technical Architecture\n\n"
  ∧ (buildReport genTime fullLog ro result).get? 19
      = some (if truthyOutput ro.technical_requirements_output
          then ro.technical_requirements_output.getD "" ++ "\n\n"
          else "*Technical architecture output not captured - check full log file*\n\n")
  ∧ (buildReport genTime fullLog ro result).get? 21
      = some "## 4. Compliance & Safety Requirements\n\n"
  ∧ (buildReport genTime fullLog ro result).get? 22
      = some (if truthyOutput ro.compliance_review_output
          then ro.compliance_review_output.getD "" ++ "\n\n"
          else "*Compliance output not captured - check full log file*\n\n")
  ∧ (buildReport genTime fullLog ro result).get? 24
      = some "## 5. Feature Prioritization\n\n"
  ∧ (buildReport genTime fullLog ro result).get? 25
      = some (if truthyOutput ro.feature_prioritization_output
          then ro.feature_prioritization_output.getD "" ++ "\n\n"
          else "*Feature prioritization output not captured - check full log file*\n\n")
  ∧ (buildReport genTime fullLog ro result).get? 27
      = some "## 6. UI Design System\n\n"
  ∧ (buildReport genTime fullLog ro result).get? 28
      = some (if truthyOutput ro.ui_design_output
          then ro.ui_design_output.getD "" ++ "\n\n"
          else "*UI design output not captured - check full log file*\n\n")
  ∧ (buildReport genTime fullLog ro result).get? 30
      = some "## 7. Business Model & Monetization\n\n"
  ∧ (buildReport genTime fullLog ro result).get? 31
      = some (if truthyOutput (some result)
          then result ++ "\n\n"
          else "*Business model output not captured - check full log file*\n\n") := by
  refine ⟨rfl, rfl, rfl, rfl, ?_, rfl, ?_, rfl, ?_, rfl, ?_, rfl, ?_, rfl, ?_, rfl, ?_⟩
  · show some (renderTaskSection ro.market_research_output _) = _
    rw [renderTaskSection_ite]
  · show some (renderTaskSection ro.user_research_output _) = _
    rw [renderTaskSection_ite]
  · show some (renderTaskSection ro.technical_requirements_output _) = _
    rw [renderTaskSection_ite]
  · show some (renderTaskSection ro.compliance_review_output _) = _
    rw [renderTaskSection_ite]
  · show some (renderTaskSection ro.feature_prioritization_output _) = _
    rw [renderTaskSection_ite]
  · show some (renderTaskSection ro.ui_design_output _) = _
    rw [renderTaskSection_ite]
  · show some (renderTaskSection (some result) _) = _
    rw [renderTaskSection_ite]
    rfl

/-- Claim C5: if `crew.kickoff()` — or the subsequent report writing —
raises any exception, the driver catches it in its single broad except
clause and prints an error message; and on every execution path, success or
failure, the `finally` block closes the log file and restores `sys.stdout`
to the original standard output. -/
theorem main_broad_except_and_finally_cleanup
    (kick : Except String String) (reportWrite : Except String Unit)
    (ro : RunOutputs) (genTime fullLog : String) :
    (mainModel kick reportWrite ro genTime fullLog).logClosed = true
  ∧ (mainModel kick reportWrite ro genTime fullLog).stdoutRestored = true
  ∧ (∀ e, kick = Except.error e →
      (mainModel kick reportWrite ro genTime fullLog).errorPrinted = true)
  ∧ (∀ r e, kick = Except.ok r → reportWrite = Except.error e →
      (mainModel kick reportWrite ro genTime fullLog).errorPrinted = true) := by
  refine ⟨?_, ?_, ?_, ?_⟩
  · cases kick <;> cases reportWrite <;> rfl
  · cases kick <;> cases reportWrite <;> rfl
  · intro e he
    subst he
    cases reportWrite <;> rfl
  · intro r e hk hrw
    subst hk
    subst hrw
    rfl

/-- Witness for claim C5: a run in which `crew.kickoff()` raises. -/
theorem main_broad_except_and_finally_cleanup_witness :
    (mainModel (Except.error "boom") (Except.ok ()) sampleOutputs "t" "full.txt").logClosed = true
  ∧ (mainModel (Except.error "boom") (Except.ok ()) sampleOutputs "t" "full.txt").stdoutRestored = true
  ∧ (mainModel (Except.error "boom") (Except.ok ()) sampleOutputs "t" "full.txt").errorPrinted = true :=
  ⟨(main_broad_except_and_finally_cleanup (Except.error "boom") (Except.ok ())
      sampleOutputs "t" "full.txt").1,
   (main_broad_except_and_finally_cleanup (Except.error "boom") (Except.ok ())
      sampleOutputs "t" "full.txt").2.1,
   (main_broad_except_and_finally_cleanup (Except.error "boom") (Except.ok ())
      sampleOutputs "t" "full.txt").2.2.1 "boom" rfl⟩

/-- Claim C6: the driver constructs the `Crew` with `process` set to the
framework's sequential mode and with exactly seven tasks in the fixed order
market research, user research, technical requirements, compliance review,
feature prioritization, UI design, business model (the seven descriptors
being pairwise distinct, as witnessed by their expected outputs). -/
theorem crew_sequential_with_seven_tasks_in_fixed_order :
    crew.process = Process.sequential
  ∧ crew.tasks = [market_research, user_research, technical_requirements,
      compliance_review, feature_prioritization, ui_design, business_model]
  ∧ crew.tasks.length = 7
  ∧ (crew.tasks.map Task.expected_output).Nodup :=
  ⟨rfl, rfl, by decide, by decide⟩

/-- Claim C7: for every task in the executed sequence that carries a
context list, every task in that context list occurs strictly earlier in
the crew's task sequence — the context-dependency relation over the seven
tasks points only backwards in execution order (hence is acyclic). -/
theorem context_tasks_occur_strictly_earlier :
    ∀ i : Fin all_tasks.length, ∀ t ∈ (all_tasks.get i).context,
      ∃ j : Fin all_tasks.length, (j : ℕ) < (i : ℕ) ∧ all_tasks.get j = t := by
  intro i
  rcases i with ⟨iv, hiv⟩
  have h7 : all_tasks.length = 7 := rfl
  rw [h7] at hiv
  interval_cases iv
  · intro t ht
    rw [show (all_tasks.get ⟨0, hiv⟩).context = [] from rfl] at ht
    exact absurd ht (List.not_mem_nil t)
  · intro t ht
    rw [show (all_tasks.get ⟨1, hiv⟩).context = [] from rfl] at ht
    exact absurd ht (List.not_mem_nil t)
  · intro t ht
    rw [show (all_tasks.get ⟨2, hiv⟩).context = [] from rfl] at ht
    exact absurd ht (List.not_mem_nil t)
  · intro t ht
    rw [show (all_tasks.get ⟨3, hiv⟩).context = [] from rfl] at ht
    exact absurd ht (List.not_mem_nil t)
  · intro t ht
    rw [show (all_tasks.get ⟨4, hiv⟩).context
        = [market_research, user_research, technical_requirements] from rfl] at ht
    simp only [List.mem_cons, List.not_mem_nil, or_false] at ht
    rcases ht with rfl | rfl | rfl
    · exact ⟨⟨0, by decide⟩, show (0:ℕ) < (4:ℕ) by decide, rfl⟩
    · exact ⟨⟨1, by decide⟩, show (1:ℕ) < (4:ℕ) by decide, rfl⟩
    · exact ⟨⟨2, by decide⟩, show (2:ℕ) < (4:ℕ) by decide, rfl⟩
  · intro t ht
    rw [show (all_tasks.get ⟨5, hiv⟩).context
        = [user_research, feature_prioritization] from rfl] at ht
    simp only [List.mem_cons, List.not_mem_nil, or_false] at ht
    rcases ht with rfl | rfl
    · exact ⟨⟨1, by decide⟩, show (1:ℕ) < (5:ℕ) by decide, rfl⟩
    · exact ⟨⟨4, by decide⟩, show (4:ℕ) < (5:ℕ) by decide, rfl⟩
  · intro t ht
    rw [show (all_tasks.get ⟨6, hiv⟩).context
        = [market_research, user_research, feature_prioritization] from rfl] at ht
    simp only [List.mem_cons, List.not_mem_nil, or_false] at ht
    rcases ht with rfl | rfl | rfl
    · exact ⟨⟨0, by decide⟩, show (0:ℕ) < (6:ℕ) by decide, rfl⟩
    · exact ⟨⟨1, by decide⟩, show (1:ℕ) < (6:ℕ) by decide, rfl⟩
    · exact ⟨⟨4, by decide⟩, show (4:ℕ) < (6:ℕ) by decide, rfl⟩

/-- Witness for claim C7: the market-research task, a member of the
feature-prioritization task's context (position 4), occurs strictly
earlier in the crew's task sequence. -/
theorem context_tasks_occur_strictly_earlier_witness :
    ∃ j : Fin all_tasks.length, (j : ℕ) < 4 ∧ all_tasks.get j = market_research := by
  have h := context_tasks_occur_strictly_earlier ⟨4, by decide⟩ market_research
    (show market_research ∈ [market_research, user_research, technical_requirements]
      from List.mem_cons_self _ _)
  exact h

/-- Claim C8: section 7 of the generated report (Business Model &
Monetization, the chunk at position 31) is filled from the overall value
returned by `crew.kickoff()` — the report does not depend on the
business-model task's own output attribute at all — while sections 1
through 6 are each filled from the corresponding task's output attribute. -/
theorem report_section7_filled_from_kickoff_result
    (genTime fullLog : String) (ro : RunOutputs) (result : String)
    (o : Option String) :
    (buildReport genTime fullLog ro result).get? 31
      = some (if result.isEmpty
          then "*Business model output not captured - check full log file*\n\n"
          else result ++ "\n\n")
  ∧ buildReport genTime fullLog { ro with business_model_output := o } result
      = buildReport genTime fullLog ro result
  ∧ (buildReport genTime fullLog ro result).get? 13
      = some (renderTaskSection ro.market_research_output
          "*Market research output not captured - check full log file*\n\n")
  ∧ (buildReport genTime fullLog ro result).get? 16
      = some (renderTaskSection ro.user_research_output
          "*User research output not captured - check full log file*\n\n")
  ∧ (buildReport genTime fullLog ro result).get? 19
      = some (renderTaskSection ro.technical_requirements_output
          "*Technical architecture output not captured - check full log file*\n\n")
  ∧ (buildReport genTime fullLog ro result).get? 22
      = some (renderTaskSection ro.compliance_review_output
          "*Compliance output not captured - check full log file*\n\n")
  ∧ (buildReport genTime fullLog ro result).get? 25
      = some (renderTaskSection ro.feature_prioritization_output
          "*Feature prioritization output not captured - check full log file*\n\n")
  ∧ (buildReport genTime fullLog ro result).get? 28
      = some (renderTaskSection ro.ui_design_output
          "*UI design output not captured - check full log file*\n\n") :=
  ⟨rfl, rfl, rfl, rfl, rfl, rfl, rfl, rfl⟩

/-- Claim C9: if `crew.kickoff()` raises, `main` does not return normally —
after the except and finally blocks run, the final `return result` raises
`UnboundLocalError` because the local `result` was never bound; `main`
returns a value exactly when the kickoff succeeded. -/
theorem main_unbound_local_when_kickoff_raises
    (kick : Except String String) (reportWrite : Except String Unit)
    (ro : RunOutputs) (genTime fullLog : String) :
    (∀ e, kick = Except.error e →
        (mainModel kick reportWrite ro genTime fullLog).ret = none
      ∧ (mainModel kick reportWrite ro genTime fullLog).raisedUnboundLocal = true)
  ∧ ((mainModel kick reportWrite ro genTime fullLog).ret.isSome
      ↔ ∃ r, kick = Except.ok r) := by
  constructor
  · intro e he
    subst he
    exact ⟨rfl, rfl⟩
  · constructor
    · intro h
      cases kick with
      | ok r => exact ⟨r, rfl⟩
      | error e =>
        cases reportWrite <;> simp [mainModel] at h
    · rintro ⟨r, rfl⟩
      cases reportWrite <;> rfl

/-- Witness for claim C9: a run in which `crew.kickoff()` raises; `main`
returns no value and hits `UnboundLocalError` at `return result`. -/
theorem main_unbound_local_when_kickoff_raises_witness :
    (mainModel (Except.error "kickoff failed") (Except.ok ()) sampleOutputs "t" "full.txt").ret = none
  ∧ (mainModel (Except.error "kickoff failed") (Except.ok ()) sampleOutputs "t" "full.txt").raisedUnboundLocal = true :=
  (main_unbound_local_when_kickoff_raises (Except.error "kickoff failed")
    (Except.ok ()) sampleOutputs "t" "full.txt").1 "kickoff failed" rfl

/-- Claim C10: the agent and task registries are stateless and
deterministic: the registry classes carry no state (any two registry values
are equal), and calling the same factory method on any two registry values
with equal arguments produces descriptors with equal field values — no
factory call can depend on, or mutate, registry state. -/
theorem registries_stateless_and_deterministic :
    (∀ r1 r2 : BasketballLeagueAgents, r1 = r2)
  ∧ (∀ r1 r2 : BasketballLeagueTasks, r1 = r2)
  ∧ (∀ r1 r2 : BasketballLeagueAgents,
        r1.market_researcher = r2.market_researcher
      ∧ r1.ux_researcher = r2.ux_researcher
      ∧ r1.technical_architect = r2.technical_architect
      ∧ r1.feature_analyst = r2.feature_analyst
      ∧ r1.compliance_expert = r2.compliance_expert
      ∧ r1.business_strategist = r2.business_strategist
      ∧ r1.ui_designer = r2.ui_designer)
  ∧ (∀ (r1 r2 : BasketballLeagueTasks) (a : Agent),
        r1.market_research_task a = r2.market_research_task a
      ∧ r1.user_research_task a = r2.user_research_task a
      ∧ r1.technical_requirements_task a = r2.technical_requirements_task a
      ∧ r1.compliance_review_task a = r2.compliance_review_task a)
  ∧ (∀ (r1 r2 : BasketballLeagueTasks) (a : Agent) (ctx : List Task),
        r1.feature_prioritization_task a ctx = r2.feature_prioritization_task a ctx
      ∧ r1.ui_design_task a ctx = r2.ui_design_task a ctx
      ∧ r1.business_model_task a ctx = r2.business_model_task a ctx) :=
  ⟨fun r1 r2 => by cases r1; cases r2; rfl,
   fun r1 r2 => by cases r1; cases r2; rfl,
   fun _ _ => ⟨rfl, rfl, rfl, rfl, rfl, rfl, rfl⟩,
   fun _ _ _ => ⟨rfl, rfl, rfl, rfl⟩,
   fun _ _ _ _ => ⟨rfl, rfl, rfl⟩⟩

end CrewaiResearch
